import Mathlib

/-!
Verification of the healthcare incremental-load batch pipeline
(src/src/healthcare-data-analysis.py).

The script reads a daily CSV into a Spark dataframe, validates and cleans it
(data_quality_check), writes the raw data, a cleaning report and five
aggregations to MongoDB collections in append mode, and finally advances a
persisted YYYYMMDD date cursor by one day.

Shallow embedding conventions:
- A dataframe is a list of rows.  A row carries the six mandatory columns as
  Option values (None models SQL null).  The input dataframe additionally
  carries its column-name list, because data_quality_check inspects
  df.columns.
- diagnosis_date is modelled as a string column (the CSV date text), so that
  Sparks lexicographic string ordering on ISO dates is the date ordering and
  fillna with a string value applies to the column.
- Sparks exact median (pyspark.sql.functions.median) is modelled over the
  rationals; fillna on the integer age column casts the double fill value to
  int, i.e. truncates toward zero.
- MongoDB is modelled as a map from collection name to the list of documents
  ever written to it; every write in the script uses mode append.
-/

namespace HealthETL

/-- Calendar model for the date cursor (Python datetime + timedelta(days=1))
and for Sparks dayofweek. -/
structure HDate where
  year : Nat
  month : Nat
  day : Nat
deriving DecidableEq

instance : Inhabited HDate := ⟨⟨1, 1, 1⟩⟩

/-- Gregorian leap year rule, as implemented by Python datetime. -/
def isLeap (y : Nat) : Bool :=
  (y % 4 == 0 && y % 100 != 0) || y % 400 == 0

/-- Length of month m of year y (1-based months); 0 for out-of-range m. -/
def monthLen (y m : Nat) : Nat :=
  match m with
  | 1 => 31
  | 2 => if isLeap y then 29 else 28
  | 3 => 31
  | 4 => 30
  | 5 => 31
  | 6 => 30
  | 7 => 31
  | 8 => 31
  | 9 => 30
  | 10 => 31
  | 11 => 30
  | 12 => 31
  | _ => 0

/-- Days in year y strictly before month m (1-based); for m past 12 the
count for the full year is returned so the table stays monotone. -/
def daysBeforeMonth (y m : Nat) : Nat :=
  match m with
  | 0 => 0
  | 1 => 0
  | 2 => 31
  | 3 => 59 + (if isLeap y then 1 else 0)
  | 4 => 90 + (if isLeap y then 1 else 0)
  | 5 => 120 + (if isLeap y then 1 else 0)
  | 6 => 151 + (if isLeap y then 1 else 0)
  | 7 => 181 + (if isLeap y then 1 else 0)
  | 8 => 212 + (if isLeap y then 1 else 0)
  | 9 => 243 + (if isLeap y then 1 else 0)
  | 10 => 273 + (if isLeap y then 1 else 0)
  | 11 => 304 + (if isLeap y then 1 else 0)
  | _ => 334 + (if isLeap y then 1 else 0)

/-- Days in the proleptic Gregorian calendar strictly before year y. -/
def daysBeforeYear (y : Nat) : Nat :=
  365 * (y - 1) + (y - 1) / 4 - (y - 1) / 100 + (y - 1) / 400

/-- Ordinal day number (rata die): 0001-01-01 has number 1. -/
def dayNumber (d : HDate) : Nat :=
  daysBeforeYear d.year + daysBeforeMonth d.year d.month + d.day

/-- A calendar date Python datetime accepts (year 1..9999). -/
def validDate (d : HDate) : Bool :=
  1 ≤ d.year && d.year ≤ 9999 && 1 ≤ d.month && d.month ≤ 12 &&
    1 ≤ d.day && d.day ≤ monthLen d.year d.month

/-- date + timedelta(days=1): the calendar successor. -/
def nextDay (d : HDate) : HDate :=
  if d.day < monthLen d.year d.month then ⟨d.year, d.month, d.day + 1⟩
  else if d.month < 12 then ⟨d.year, d.month + 1, 1⟩
  else ⟨d.year + 1, 1, 1⟩

/-- Value of a decimal digit character. -/
def digitVal (c : Char) : Option Nat :=
  if c.isDigit then some (c.toNat - 48) else none

/-- Parse two decimal digit characters. -/
def parse2 (a b : Char) : Option Nat := do
  let x ← digitVal a
  let y ← digitVal b
  pure (10 * x + y)

/-- Parse four decimal digit characters. -/
def parse4 (a b c d : Char) : Option Nat := do
  let x ← parse2 a b
  let y ← parse2 c d
  pure (100 * x + y)

/-- datetime.strptime(s, percent-Y percent-m percent-d): eight digits
YYYYMMDD forming a valid calendar date. -/
def parse8 (s : String) : Option HDate :=
  match s.toList with
  | [y1, y2, y3, y4, m1, m2, d1, d2] =>
    match parse4 y1 y2 y3 y4, parse2 m1 m2, parse2 d1 d2 with
    | some y, some m, some d =>
      if validDate ⟨y, m, d⟩ then some ⟨y, m, d⟩ else none
    | _, _, _ => none
  | _ => none

/-- Sparks cast of a string to a date for dayofweek: strict ISO
YYYY-MM-DD, null on anything unparseable or invalid. -/
def parseISO (s : String) : Option HDate :=
  match s.toList with
  | [y1, y2, y3, y4, h1, m1, m2, h2, d1, d2] =>
    if h1 = '-' && h2 = '-' then
      match parse4 y1 y2 y3 y4, parse2 m1 m2, parse2 d1 d2 with
      | some y, some m, some d =>
        if validDate ⟨y, m, d⟩ then some ⟨y, m, d⟩ else none
      | _, _, _ => none
    else none
  | _ => none

/-- Zero-padded two-digit rendering (strftime percent-m / percent-d). -/
def pad2 (n : Nat) : String :=
  if n < 10 then "0" ++ toString n else toString n

/-- Zero-padded four-digit rendering (strftime percent-Y). -/
def pad4 (n : Nat) : String :=
  if n < 10 then "000" ++ toString n
  else if n < 100 then "00" ++ toString n
  else if n < 1000 then "0" ++ toString n
  else toString n

/-- datetime.strftime(d, percent-Y percent-m percent-d). -/
def format8 (d : HDate) : String :=
  pad4 d.year ++ pad2 d.month ++ pad2 d.day

/-- A row of the healthcare dataframe after the cast step projects it to the
six mandatory columns (src line 64-70).  None models SQL null. -/
structure RawRow where
  patient_id : Option String
  age : Option Int
  gender : Option String
  diagnosis_code : Option String
  diagnosis_description : Option String
  diagnosis_date : Option String
deriving DecidableEq

instance : Inhabited RawRow := ⟨⟨none, none, none, none, none, none⟩⟩

/-- The input dataframe as data_quality_check sees it: the column-name list
(df.columns, consulted by the schema check) plus the row data. -/
structure InputDF where
  columns : List String
  rows : List RawRow
deriving DecidableEq

/-- mandatory_fields (src line 53). -/
def mandatoryFields : List String :=
  ["patient_id", "age", "gender", "diagnosis_code", "diagnosis_description",
   "diagnosis_date"]

/-- Per-column null counts (src line 80). -/
structure NullCount where
  patient_id : Nat
  age : Nat
  gender : Nat
  diagnosis_code : Nat
  diagnosis_description : Nat
  diagnosis_date : Nat
deriving DecidableEq

/-- cleaning_report (src lines 95-99). -/
structure CleaningReport where
  missing_columns : List String
  duplicate_records : Nat
  columns_with_null_count : NullCount
deriving DecidableEq

/-- Exceptions data_quality_check can raise: the ValueError of the schema
check (src line 59) versus the TypeErrors PySpark raises later (first() of
an empty dataframe subscripted, or fillna handed a None fill value). -/
inductive DQError where
  | schemaError (column : String)
  | typeError (message : String)
deriving DecidableEq

instance {e a : Type} [DecidableEq e] [DecidableEq a] : DecidableEq (Except e a) := fun x y =>
  match x, y with
  | .error u, .error v =>
    if h : u = v then .isTrue (by rw [h]) else .isFalse (fun hc => by cases hc; exact h rfl)
  | .ok u, .ok v =>
    if h : u = v then .isTrue (by rw [h]) else .isFalse (fun hc => by cases hc; exact h rfl)
  | .error _, .ok _ => .isFalse (fun hc => by cases hc)
  | .ok _, .error _ => .isFalse (fun hc => by cases hc)

/-- The schema-check loop (src lines 56-59): walk the mandatory columns in
order, accumulate into missing_col, and raise on the first absent one.  The
append before the raise is discarded with the exception, so a normal return
carries the accumulator unchanged. -/
def checkColumns : List String → List String → List String → Except DQError (List String)
  | [], _, acc => .ok acc
  | c :: cs, cols, acc =>
    if cols.contains c then checkColumns cs cols acc
    else .error (.schemaError c)

/-- Occurrences of a row in a dataframe. -/
def countEq (rows : List RawRow) (r : RawRow) : Nat :=
  (rows.filter (fun x => decide (x = r))).length

/-- df.groupBy(mandatory_fields).count() (src line 74): one (key, count)
pair per distinct full tuple. -/
def groupCounts (rows : List RawRow) : List (RawRow × Nat) :=
  rows.dedup.map (fun r => (r, countEq rows r))

/-- duplicate_records (src line 74): the number of groups whose count
exceeds 2. -/
def duplicateRecords (rows : List RawRow) : Nat :=
  ((groupCounts rows).filter (fun p => decide (2 < p.2))).length

/-- Null count of one Option column. -/
def nullsIn (l : List (Option String)) : Nat :=
  (l.filter (fun x => x.isNone)).length

/-- null_count (src line 80): per-column count of nulls over the cast
dataframe, before any row is dropped. -/
def nullCounts (rows : List RawRow) : NullCount :=
  { patient_id := nullsIn (rows.map (fun r => r.patient_id))
    age := (rows.filter (fun r => r.age.isNone)).length
    gender := nullsIn (rows.map (fun r => r.gender))
    diagnosis_code := nullsIn (rows.map (fun r => r.diagnosis_code))
    diagnosis_description := nullsIn (rows.map (fun r => r.diagnosis_description))
    diagnosis_date := nullsIn (rows.map (fun r => r.diagnosis_date)) }

/-- Lexicographic comparison of char lists by code point, the order Spark
uses for string columns. -/
def strLtB : List Char → List Char → Bool
  | [], [] => false
  | [], _ :: _ => true
  | _ :: _, [] => false
  | a :: as, b :: bs =>
    if a.toNat < b.toNat then true
    else if b.toNat < a.toNat then false
    else strLtB as bs

/-- Lexicographic string comparison by code point. -/
def strLt (a b : String) : Bool := strLtB a.toList b.toList

/-- Insert into a ≤-sorted list of integers. -/
def insertSorted (x : Int) : List Int → List Int
  | [] => [x]
  | y :: ys => if x ≤ y then x :: y :: ys else y :: insertSorted x ys

/-- Ascending insertion sort. -/
def sortInts (l : List Int) : List Int :=
  l.foldr insertSorted []

/-- Sparks exact median aggregate over the non-null ages (src line 86):
the middle element for an odd count, the mean of the two middle elements
for an even count, null for an empty input. -/
def medianQ (l : List Int) : Option ℚ :=
  let s := sortInts l
  let n := s.length
  if n = 0 then none
  else if n % 2 = 1 then some (Rat.divInt (s.getD (n / 2) 0) 1)
  else some (Rat.divInt (s.getD (n / 2 - 1) 0 + s.getD (n / 2) 0) 2)

/-- Sparks cast of the double fill value to the int age column
(fillna, src line 87): truncation toward zero. -/
def truncQ (q : ℚ) : Int :=
  if 0 ≤ q.num then Int.ofNat (q.num.toNat / q.den)
  else -Int.ofNat ((-q.num).toNat / q.den)

/-- df.filter(diagnosis_date isNotNull).sort(desc(diagnosis_date)).first()
(src line 90): the first row of the descending sort, i.e. a row carrying the
maximum non-null diagnosis_date (the earliest such row on ties). -/
def firstMaxDateRow (rows : List RawRow) : Option RawRow :=
  (rows.filter (fun r => r.diagnosis_date.isSome)).foldl
    (fun acc r =>
      match acc with
      | none => some r
      | some b =>
        if strLt (b.diagnosis_date.getD "") (r.diagnosis_date.getD "")
        then some r else acc)
    none

/-- The rows surviving df.filter(patient_id isNotNull) (src line 84). -/
def droppedRows (inp : InputDF) : List RawRow :=
  inp.rows.filter (fun r => r.patient_id.isSome)

/-- fillna on the age column (src line 87): replace a null age by v. -/
def fillAge (v : Int) (r : RawRow) : RawRow :=
  { r with age := some (r.age.getD v) }

/-- fillna on the diagnosis_date column (src line 91): replace a null
diagnosis_date by s. -/
def fillDate (s : String) (r : RawRow) : RawRow :=
  { r with diagnosis_date := some (r.diagnosis_date.getD s) }

/-- data_quality_check (src lines 51-102).  The cast step (lines 64-70) is
the identity in this model: rows already carry the six typed columns.
Errors: the schema ValueError, then the PySpark TypeErrors when the age
median is null (fillna handed None) or when first() on the date-sorted
dataframe returns None and is subscripted.  Note line 90 takes element 0 of
the first row, which is the patient_id column, and uses it as the
diagnosis_date fill value. -/
def dataQualityCheck (inp : InputDF) : Except DQError (List RawRow × CleaningReport) :=
  match checkColumns mandatoryFields inp.columns [] with
  | .error e => .error e
  | .ok missing =>
    match medianQ ((droppedRows inp).filterMap (fun r => r.age)) with
    | none => .error (.typeError "age fill value is None")
    | some med =>
      match firstMaxDateRow ((droppedRows inp).map (fillAge (truncQ med))) with
      | none => .error (.typeError "NoneType is not subscriptable")
      | some rmax =>
        match rmax.patient_id with
        | none => .error (.typeError "date fill value is None")
        | some latest =>
          .ok (((droppedRows inp).map (fillAge (truncQ med))).map (fillDate latest),
               { missing_columns := missing
                 duplicate_records := duplicateRecords inp.rows
                 columns_with_null_count := nullCounts inp.rows })

/-- Insert by a boolean comes-no-later-than test (stable insertion sort),
modelling the deterministic order Spark renders in the examples. -/
def insertBy (le : α → α → Bool) (x : α) : List α → List α
  | [] => [x]
  | y :: ys => if le x y then x :: y :: ys else y :: insertBy le x ys

/-- Stable insertion sort by a boolean test. -/
def sortBy (le : α → α → Bool) (l : List α) : List α :=
  l.foldr (insertBy le) []

/-- Count of rows of a group with the given diagnosis_code carrying the
given (non-null) gender: one pivot cell before null-for-empty. -/
def genderCount (rows : List RawRow) (c : Option String) (g : String) : Nat :=
  (rows.filter (fun r => decide (r.diagnosis_code = c) &&
                         decide (r.gender = some g))).length

/-- Round half-up to two decimals (Sparks round(x, 2)) over ℚ, for the
nonnegative ratios the pipeline produces: the floor of q * 100 + 1/2,
written on the integer numerator and denominator, over 100. -/
def round2 (q : ℚ) : ℚ :=
  Rat.divInt (Int.fdiv (q.num * 200 + Int.ofNat q.den) (2 * Int.ofNat q.den)) 100

/-- The distinct non-null gender strings: the columns pivot(gender) creates
(a null gender pivots to a column named null, never resolved as M or F). -/
def pivotGenders (rows : List RawRow) : List String :=
  (rows.filterMap (fun r => r.gender)).dedup

/-- A pivot count cell: null when the group is empty for that gender. -/
def pivotCell (rows : List RawRow) (c : Option String) (g : String) : Option Nat :=
  let n := genderCount rows c g
  if n = 0 then none else some n

/-- disease_gender_ratio (src lines 122-124): groupBy diagnosis_code, pivot
gender, count, then select round(M / F, 2) as ratio.  If the data contains
no M gender at all (or no F), the pivot has no such column and the select
raises an AnalysisException.  A null cell propagates to a null ratio. -/
def disease_gender_ratio (rows : List RawRow) :
    Except String (List (Option String × Option ℚ)) :=
  if pivotGenders rows |>.contains "M" then
    if pivotGenders rows |>.contains "F" then
      .ok ((rows.map (fun r => r.diagnosis_code)).dedup.map
        (fun c =>
          (c, match pivotCell rows c "M", pivotCell rows c "F" with
              | some m, some f =>
                some (round2 (Rat.divInt (Int.ofNat m) (Int.ofNat f)))
              | _, _ => none)))
    else .error "cannot resolve column F"
  else .error "cannot resolve column M"

/-- most_common_diseases (src lines 150-152): groupBy diagnosis_description,
count, sort by count descending. -/
def most_common_diseases (rows : List RawRow) : List (Option String × Nat) :=
  sortBy (fun a b => decide (b.2 ≤ a.2))
    ((rows.map (fun r => r.diagnosis_description)).dedup.map
      (fun d =>
        (d, (rows.filter (fun r => decide (r.diagnosis_description = d))).length)))

/-- The age_group when-chain (src lines 182-188); a null age falls through
every when to the otherwise branch. -/
def ageGroup (a : Option Int) : String :=
  match a with
  | none => "minors"
  | some n =>
    if 30 ≤ n && n ≤ 40 then "30-40"
    else if 41 ≤ n && n ≤ 50 then "41-50"
    else if 51 ≤ n && n ≤ 60 then "51-60"
    else if 61 ≤ n && n ≤ 70 then "61-70"
    else if 71 ≤ n then "70+"
    else "minors"

/-- age_category (src lines 181-190): add age_group, group by
(age_group, diagnosis_description, diagnosis_code), count, order by
age_group ascending then count descending. -/
def age_category (rows : List RawRow) :
    List ((String × Option String × Option String) × Nat) :=
  let keyed := rows.map
    (fun r => (ageGroup r.age, r.diagnosis_description, r.diagnosis_code))
  sortBy (fun a b =>
      if a.1.1 = b.1.1 then decide (b.2 ≤ a.2) else decide (a.1.1 < b.1.1))
    (keyed.dedup.map
      (fun k => (k, (keyed.filter (fun x => decide (x = k))).length)))

/-- senior_citizen_flag (src lines 218-223): flag age ≥ 60 as Y, select the
five columns, sort by age descending (nulls last). -/
def senior_citizen_flag (rows : List RawRow) :
    List (Option String × Option Int × Option String × Option String × String) :=
  sortBy (fun a b =>
      match a.2.1, b.2.1 with
      | some x, some y => decide (y ≤ x)
      | some _, none => true
      | none, _ => false)
    (rows.map (fun r =>
      (r.patient_id, r.age, r.gender, r.diagnosis_description,
       if r.age.getD (-1) ≥ 60 then "Y" else "N")))

/-- Sparks dayofweek over a date string: cast the string to a date (null on
failure) and number the weekday 1 = Sunday .. 7 = Saturday. -/
def dayOfWeekOf (s : String) : Option Nat :=
  (parseISO s).map (fun d => dayNumber d % 7 + 1)

/-- disease_trend_over_the_week (src lines 251-262): reads every CSV under
the input directory (NOT the cleaned dataframe), adds
dayofweek(diagnosis_date), groups by (diagnosis_description, dayofweek),
counts, orders by count descending then dayofweek. -/
def disease_trend_over_the_week (diskRows : List RawRow) :
    List ((Option String × Option Nat) × Nat) :=
  let keyed := diskRows.map
    (fun r => (r.diagnosis_description, r.diagnosis_date.bind dayOfWeekOf))
  sortBy (fun a b =>
      if a.2 = b.2 then decide (a.1.2.getD 0 ≤ b.1.2.getD 0)
      else decide (b.2 ≤ a.2))
    (keyed.dedup.map
      (fun k => (k, (keyed.filter (fun x => decide (x = k))).length)))

/-- The state the five transformation functions can observe: the cleaned
dataframe passed as their argument, and the CSV files on disk, which
disease_trend_over_the_week re-reads via the wildcard path. -/
structure SparkEnv where
  cleanedDF : List RawRow
  diskRows : List RawRow
deriving DecidableEq

/-- disease_gender_ratio as invoked by main (src line 309). -/
def runGenderRatio (e : SparkEnv) := disease_gender_ratio e.cleanedDF

/-- most_common_diseases as invoked by main (src line 310). -/
def runMostCommon (e : SparkEnv) := most_common_diseases e.cleanedDF

/-- age_category as invoked by main (src line 311). -/
def runAgeCategory (e : SparkEnv) := age_category e.cleanedDF

/-- senior_citizen_flag as invoked by main (src line 312). -/
def runSeniorFlag (e : SparkEnv) := senior_citizen_flag e.cleanedDF

/-- disease_trend_over_the_week as invoked by main (src line 313): it takes
the Spark session, not the cleaned dataframe, and reads the disk. -/
def runDiseaseTrend (e : SparkEnv) := disease_trend_over_the_week e.diskRows

/-- A document written to MongoDB: one constructor per output shape. -/
inductive MDoc where
  | raw (r : RawRow)
  | report (rep : CleaningReport)
  | ratio (p : Option String × Option ℚ)
  | common (p : Option String × Nat)
  | ageCat (p : (String × Option String × Option String) × Nat)
  | senior (p : Option String × Option Int × Option String × Option String × String)
  | trend (p : (Option String × Option Nat) × Nat)
deriving DecidableEq

/-- The MongoDB database: every collection name maps to the list of
documents it holds, in insertion order. -/
def Store := String → List MDoc

/-- One write call: the target collection and the dataframe rows saved. -/
def WriteOp := String × List MDoc

/-- mode(append).save(): the new documents go after the existing ones;
nothing is read back, nothing is removed. -/
def applyWrite (s : Store) (w : WriteOp) : Store :=
  fun c => if c = w.1 then s c ++ w.2 else s c

/-- Apply a run's writes in order. -/
def applyWrites (s : Store) (ws : List WriteOp) : Store :=
  ws.foldl applyWrite s

/-- The documents a list of writes sends to collection c, in order. -/
def writesFor (c : String) (ws : List WriteOp) : List MDoc :=
  (ws.filter (fun w => decide (w.1 = c))).foldr (fun w acc => w.2 ++ acc) []

/-- The write calls a run of the try block performs, in order, given a
successfully read input (src lines 303-314).  An exception aborts the
block, so later writes are dropped: data_quality_check may raise, and
disease_gender_ratio may raise its AnalysisException; the remaining
transformations and writes cannot raise in this model. -/
def runWrites (inp : InputDF) (disk : List RawRow) : List WriteOp :=
  ("healthcare_raw_data", inp.rows.map .raw) ::
    (match dataQualityCheck inp with
     | .error _ => []
     | .ok (df, rep) =>
       ("cleaning_report", [.report rep]) ::
         (match disease_gender_ratio df with
          | .error _ => []
          | .ok rat =>
            [("disease_gender_ratio_data", rat.map .ratio),
             ("most_common_diseases_data", (most_common_diseases df).map .common),
             ("age_category_data", (age_category df).map .ageCat),
             ("senior_citizen_flag_data", (senior_citizen_flag df).map .senior),
             ("disease_trend_over_the_week_data",
              (disease_trend_over_the_week disk).map .trend)]))

/-- The persisted configuration (config.properties): the date cursor. -/
structure Config where
  file_date : String
deriving DecidableEq

/-- save_processing_date_info (src lines 293-300): parse the cursor with
strptime, add one day, write it back; strptime raises on a malformed
cursor and datetime overflows past year 9999, leaving the file untouched. -/
def save_processing_date_info (cfg : Config) : Except String Config :=
  match parse8 cfg.file_date with
  | none => .error "strptime ValueError"
  | some d =>
    if (nextDay d).year ≤ 9999 then .ok { file_date := format8 (nextDay d) }
    else .error "datetime OverflowError"

/-- The try block of main (src lines 303-314) as it affects the config
file.  readResult is none when the CSV read (an external effect) raised.
Any exception skips every later step including the cursor update; the
except arm only logs. -/
def runMain (cfg : Config) (readResult : Option InputDF) : Config :=
  match readResult with
  | none => cfg
  | some inp =>
    match dataQualityCheck inp with
    | .error _ => cfg
    | .ok (df, _) =>
      match disease_gender_ratio df with
      | .error _ => cfg
      | .ok _ =>
        match save_processing_date_info cfg with
        | .error _ => cfg
        | .ok cfg' => cfg'

/-- Whether every step of the run succeeds, including the cursor update. -/
def runSucceeds (cfg : Config) (readResult : Option InputDF) : Bool :=
  match readResult with
  | none => false
  | some inp =>
    match dataQualityCheck inp with
    | .error _ => false
    | .ok (df, _) =>
      match disease_gender_ratio df with
      | .error _ => false
      | .ok _ =>
        match save_processing_date_info cfg with
        | .error _ => false
        | .ok _ => true

/-- Classify a data_quality_check outcome: did it raise the schema
ValueError (as opposed to succeeding or raising a later TypeError)? -/
def isSchemaErr : Except DQError (List RawRow × CleaningReport) → Bool
  | .error (.schemaError _) => true
  | .error (.typeError _) => false
  | .ok _ => false

/-- Same classification for the column-check stage on its own. -/
def isSchemaErrL : Except DQError (List String) → Bool
  | .error (.schemaError _) => true
  | .error (.typeError _) => false
  | .ok _ => false

/-- Whether some mandatory column is absent from a column list. -/
def missingMandatory (cols : List String) : Bool :=
  mandatoryFields.any (fun c => !(cols.contains c))

/-- The maximum non-null diagnosis_date of a dataframe: what the spec says
the null dates are imputed with. -/
def maxNonNullDate (rows : List RawRow) : Option String :=
  (rows.filterMap (fun r => r.diagnosis_date)).foldl
    (fun acc s =>
      match acc with
      | none => some s
      | some b => if strLt b s then some s else acc)
    none

/-- The number of ROWS whose full-tuple duplicate count exceeds 2: the
quantity claim C2 says duplicate_records equals. -/
def numRowsOverDup (rows : List RawRow) : Nat :=
  (rows.filter (fun r => decide (2 < countEq rows r))).length

/-- The ratio claim C7 predicts for a diagnosis code: male count divided by
female count, rounded to two decimals. -/
def claimedRatio (rows : List RawRow) (c : Option String) : Option ℚ :=
  some (round2 (Rat.divInt (Int.ofNat (genderCount rows c "M"))
                           (Int.ofNat (genderCount rows c "F"))))

/-- Concrete input for C1: one row with the latest diagnosis_date and
patient_id P1, one row with a null diagnosis_date. -/
def inpC1 : InputDF :=
  { columns := mandatoryFields
    rows := [
      ⟨some "P1", some 30, some "M", some "C1", some "D", some "2023-01-02"⟩,
      ⟨some "P2", some 40, some "F", some "C1", some "D", none⟩] }

/-- The cleaned rows the code produces for inpC1: the null date became the
string P1, the patient_id of the latest-dated row. -/
def outC1 : List RawRow :=
  [⟨some "P1", some 30, some "M", some "C1", some "D", some "2023-01-02"⟩,
   ⟨some "P2", some 40, some "F", some "C1", some "D", some "P1"⟩]

/-- The cleaning report the code produces for inpC1. -/
def repC1 : CleaningReport :=
  { missing_columns := []
    duplicate_records := 0
    columns_with_null_count := ⟨0, 0, 0, 0, 0, 1⟩ }

/-- One row, used three times over in C2's input. -/
def rC2 : RawRow := ⟨some "P", some 30, some "M", some "C", some "D", some "2023-01-01"⟩

/-- Concrete input for C2: the same full tuple three times. -/
def inpC2 : InputDF := { columns := mandatoryFields, rows := [rC2, rC2, rC2] }

/-- The cleaning report the code produces for inpC2. -/
def repC2 : CleaningReport :=
  { missing_columns := []
    duplicate_records := 1
    columns_with_null_count := ⟨0, 0, 0, 0, 0, 0⟩ }

/-- Concrete input for C3: every mandatory column present, no rows. -/
def inpC3 : InputDF := { columns := mandatoryFields, rows := [] }

/-- Concrete input for C4: non-null ages 1 and 2 (median 3/2) and one null
age. -/
def inpC4 : InputDF :=
  { columns := mandatoryFields
    rows := [
      ⟨some "a", some 1, some "M", some "C", some "D", some "2023-01-01"⟩,
      ⟨some "b", some 2, some "F", some "C", some "D", some "2023-01-01"⟩,
      ⟨some "c", none, some "F", some "C", some "D", some "2023-01-01"⟩] }

/-- The cleaned rows the code produces for inpC4: the null age became 1,
the median 3/2 truncated by the cast to the int column. -/
def outC4 : List RawRow :=
  [⟨some "a", some 1, some "M", some "C", some "D", some "2023-01-01"⟩,
   ⟨some "b", some 2, some "F", some "C", some "D", some "2023-01-01"⟩,
   ⟨some "c", some 1, some "F", some "C", some "D", some "2023-01-01"⟩]

/-- The cleaning report the code produces for inpC4. -/
def repC4 : CleaningReport :=
  { missing_columns := []
    duplicate_records := 0
    columns_with_null_count := ⟨0, 1, 0, 0, 0, 0⟩ }

/-- A single disk row for C5: its presence changes the weekly-trend output
while the cleaned dataframe is untouched. -/
def trendRow : RawRow := ⟨some "p", some 30, some "M", some "C", some "X", some "2023-01-02"⟩

/-- Concrete cleaned table for C7: diagnosis code A has one M and one F
row; code B has only an F row, so its M pivot cell is null. -/
def rowsC7 : List RawRow :=
  [⟨some "p1", some 30, some "M", some "A", some "D", some "2023-01-01"⟩,
   ⟨some "p2", some 30, some "F", some "A", some "D", some "2023-01-01"⟩,
   ⟨some "p3", some 30, some "F", some "B", some "D", some "2023-01-01"⟩]

/-! Helper lemmas. -/

theorem dqc_ok_elim (inp : InputDF) (rows' : List RawRow) (rep : CleaningReport)
    (h : dataQualityCheck inp = .ok (rows', rep)) :
    ∃ missing med rmax latest,
      checkColumns mandatoryFields inp.columns [] = .ok missing ∧
      medianQ ((droppedRows inp).filterMap (fun r => r.age)) = some med ∧
      firstMaxDateRow ((droppedRows inp).map (fillAge (truncQ med))) = some rmax ∧
      rmax.patient_id = some latest ∧
      rows' = ((droppedRows inp).map (fillAge (truncQ med))).map (fillDate latest) ∧
      rep = ⟨missing, duplicateRecords inp.rows, nullCounts inp.rows⟩ := by
  unfold dataQualityCheck at h
  split at h
  · exact Except.noConfusion h
  next missing hcc =>
  split at h
  · exact Except.noConfusion h
  next med hmed =>
  split at h
  · exact Except.noConfusion h
  next rmax hmax =>
  split at h
  · exact Except.noConfusion h
  next latest hpid =>
  rw [Except.ok.injEq, Prod.mk.injEq] at h
  exact ⟨missing, med, rmax, latest, hcc, hmed, hmax, hpid, h.1.symm, h.2.symm⟩

theorem checkColumns_ok_eq (pending cols acc : List String) (l : List String)
    (h : checkColumns pending cols acc = .ok l) : l = acc := by
  induction pending with
  | nil => simpa [checkColumns] using h.symm
  | cons c cs ih =>
    unfold checkColumns at h
    split at h
    · exact ih h
    · exact Except.noConfusion h

theorem checkColumns_schema (pending cols acc : List String) :
    isSchemaErrL (checkColumns pending cols acc) =
      pending.any (fun c => !(cols.contains c)) := by
  induction pending generalizing acc with
  | nil => simp [checkColumns, isSchemaErrL]
  | cons c cs ih =>
    unfold checkColumns
    by_cases hc : c ∈ cols
    · simp [hc, ih]
    · simp [hc, isSchemaErrL]

set_option maxHeartbeats 1000000 in
theorem daysBeforeMonth_succ (y m : Nat) (h1 : 1 ≤ m) (h2 : m ≤ 11) :
    daysBeforeMonth y (m + 1) = daysBeforeMonth y m + monthLen y m := by
  have hm : m = 1 ∨ m = 2 ∨ m = 3 ∨ m = 4 ∨ m = 5 ∨ m = 6 ∨ m = 7 ∨ m = 8 ∨
      m = 9 ∨ m = 10 ∨ m = 11 := by omega
  rcases hm with rfl | rfl | rfl | rfl | rfl | rfl | rfl | rfl | rfl | rfl | rfl <;>
    cases hl : isLeap y <;> simp [daysBeforeMonth, monthLen, hl]

set_option maxHeartbeats 4000000 in
theorem daysBeforeYear_succ (y : Nat) (hy : 1 ≤ y) :
    daysBeforeYear (y + 1) = daysBeforeYear y + 365 + (if isLeap y then 1 else 0) := by
  by_cases hl : isLeap y = true
  · have hp : (y % 4 = 0 ∧ y % 100 ≠ 0) ∨ y % 400 = 0 := by
      simpa [isLeap, Bool.or_eq_true, Bool.and_eq_true, beq_iff_eq, bne_iff_ne] using hl
    rw [if_pos hl]
    unfold daysBeforeYear
    omega
  · have hp : ¬ ((y % 4 = 0 ∧ y % 100 ≠ 0) ∨ y % 400 = 0) := by
      simpa [isLeap, Bool.or_eq_true, Bool.and_eq_true, beq_iff_eq, bne_iff_ne] using hl
    rw [if_neg hl]
    unfold daysBeforeYear
    omega

theorem dayNumber_nextDay (d : HDate) (h : validDate d = true) :
    dayNumber (nextDay d) = dayNumber d + 1 := by
  simp only [validDate, Bool.and_eq_true, decide_eq_true_eq] at h
  unfold nextDay
  split
  next hlt =>
    simp only [dayNumber]
    omega
  next hlt =>
    have hde : d.day = monthLen d.year d.month := by omega
    split
    next hm =>
      simp only [dayNumber]
      rw [daysBeforeMonth_succ d.year d.month (by omega) (by omega)]
      omega
    next hm =>
      have hm12 : d.month = 12 := by omega
      have h31 : d.day = 31 := by rw [hde, hm12]; rfl
      simp only [dayNumber]
      rw [daysBeforeYear_succ d.year (by omega), hm12, h31]
      by_cases hl : isLeap d.year = true
      · simp [daysBeforeMonth, hl]
      · simp [daysBeforeMonth, hl]

theorem parse8_valid (s : String) (d : HDate) (h : parse8 s = some d) :
    validDate d = true := by
  unfold parse8 at h
  split at h
  · split at h
    · split at h
      · next hv => rw [Option.some.injEq] at h; rw [← h]; assumption
      · exact Option.noConfusion h
    · exact Option.noConfusion h
  · exact Option.noConfusion h

theorem save_ok_eq (cfg cfg2 : Config) (d : HDate)
    (hd : parse8 cfg.file_date = some d)
    (h : save_processing_date_info cfg = .ok cfg2) :
    cfg2.file_date = format8 (nextDay d) := by
  simp only [save_processing_date_info, hd] at h
  split at h
  · rw [Except.ok.injEq] at h
    rw [← h]
  · exact Except.noConfusion h

theorem applyWrites_eq (ws : List WriteOp) (s : Store) (c : String) :
    applyWrites s ws c = s c ++ writesFor c ws := by
  induction ws generalizing s with
  | nil => simp [applyWrites, writesFor]
  | cons w ws ih =>
    show applyWrites (applyWrite s w) ws c = s c ++ writesFor c (w :: ws)
    rw [ih]
    unfold applyWrite writesFor
    by_cases hc : w.1 = c
    · simp [hc]
    · have hc2 : ¬ c = w.1 := fun h => hc h.symm
      simp [hc, hc2]

theorem duplicateRecords_eq (rows : List RawRow) :
    duplicateRecords rows =
      (rows.dedup.filter (fun r => decide (2 < countEq rows r))).length := by
  unfold duplicateRecords groupCounts
  induction rows.dedup with
  | nil => simp
  | cons r l ih =>
    by_cases hr : 2 < countEq rows r <;> simp [hr, ih]

/-! Claim theorems. -/

/-- C1 (code_bug evidence): on a dataframe whose latest-dated row has
patient_id P1 and whose second row has a null diagnosis_date, the cleaned
output holds the string P1 — the patient_id of the latest-dated row, taken
by first()[0] — in the diagnosis_date column, not the maximum non-null
date 2023-01-02 announced by the comment above src line 90. -/
theorem c1_date_fill_uses_patient_id :
    dataQualityCheck inpC1 = .ok (outC1, repC1) ∧
    (inpC1.rows.getD 1 default).diagnosis_date = none ∧
    (outC1.getD 1 default).diagnosis_date = some "P1" ∧
    maxNonNullDate inpC1.rows = some "2023-01-02" ∧
    ("P1" : String) ≠ "2023-01-02" :=
  ⟨by decide, by decide, by decide, by decide, by decide⟩

/-- C2 (counterexample): on three identical rows the report's
duplicate_records field is 1 — the one distinct tuple whose count exceeds
2 — while the number of rows whose duplicate count exceeds 2 is 3. -/
theorem c2_counterexample :
    dataQualityCheck inpC2 = .ok (inpC2.rows, repC2) ∧
    repC2.duplicate_records = 1 ∧
    numRowsOverDup inpC2.rows = 3 ∧
    repC2.duplicate_records ≠ numRowsOverDup inpC2.rows :=
  ⟨by decide, by decide, by decide, by decide⟩

/-- C2 (amended): duplicate_records equals the number of DISTINCT full
six-column tuples whose occurrence count in the input exceeds 2 (the
groupBy-count-filter-count of src line 74), not the number of rows. -/
theorem c2_duplicate_records_counts_distinct_tuples
    (inp : InputDF) (rows' : List RawRow) (rep : CleaningReport)
    (h : dataQualityCheck inp = .ok (rows', rep)) :
    rep.duplicate_records =
      (inp.rows.dedup.filter (fun r => decide (2 < countEq inp.rows r))).length := by
  obtain ⟨missing, med, rmax, latest, _, _, _, _, _, hrep⟩ := dqc_ok_elim inp rows' rep h
  rw [hrep]
  exact duplicateRecords_eq inp.rows

/-- C2 (witness): the amended statement evaluated on the three-identical-row
input. -/
theorem c2_duplicate_records_witness :
    dataQualityCheck inpC2 = .ok (inpC2.rows, repC2) ∧
    repC2.duplicate_records =
      (inpC2.rows.dedup.filter (fun r => decide (2 < countEq inpC2.rows r))).length :=
  ⟨by decide, c2_duplicate_records_counts_distinct_tuples inpC2 inpC2.rows repC2 (by decide)⟩

/-- C3 (counterexample): a dataframe with every mandatory column present
but no rows still makes data_quality_check raise — a TypeError from the
null age fill value — so raising an error is not equivalent to a missing
mandatory column. -/
theorem c3_counterexample :
    missingMandatory inpC3.columns = false ∧
    dataQualityCheck inpC3 = .error (.typeError "age fill value is None") :=
  ⟨by decide, by decide⟩

/-- C3 (amended): data_quality_check raises the schema ValueError exactly
when some mandatory column is absent from the input's columns; with all six
present no schema error is raised, though later steps may raise TypeErrors. -/
theorem c3_schema_error_iff_missing_column (inp : InputDF) :
    isSchemaErr (dataQualityCheck inp) = missingMandatory inp.columns := by
  have key := checkColumns_schema mandatoryFields inp.columns []
  unfold dataQualityCheck
  split
  next e hcc =>
    rw [hcc] at key
    cases e <;> simpa [isSchemaErr, isSchemaErrL, missingMandatory] using key
  next missing hcc =>
    rw [hcc] at key
    simp only [isSchemaErrL] at key
    rw [missingMandatory, ← key]
    split
    · rfl
    split
    · rfl
    split
    · rfl
    · rfl

/-- C4 (counterexample): with non-null ages 1 and 2 the exact median is
3/2, but the null age is filled with 1 — the median truncated by the cast
to the int age column — which differs from the median. -/
theorem c4_counterexample :
    dataQualityCheck inpC4 = .ok (outC4, repC4) ∧
    medianQ ((droppedRows inpC4).filterMap (fun r => r.age)) = some (Rat.divInt 3 2) ∧
    (inpC4.rows.getD 2 default).age = none ∧
    (outC4.getD 2 default).age = some 1 ∧
    Rat.divInt 1 1 ≠ Rat.divInt 3 2 :=
  ⟨by decide, by decide, by decide, by decide, by decide⟩

/-- C4 (amended): every null age in the returned dataframe is replaced by
the exact median of the non-null ages of the rows remaining after the
patient_id drop, CAST TO INT (truncated toward zero); this equals the
median itself whenever the median is integral. -/
theorem c4_age_filled_with_truncated_median
    (inp : InputDF) (rows' : List RawRow) (rep : CleaningReport) (med : ℚ)
    (h : dataQualityCheck inp = .ok (rows', rep))
    (hmed : medianQ ((droppedRows inp).filterMap (fun r => r.age)) = some med) :
    rows'.map (fun r => r.age) =
      (droppedRows inp).map (fun r => some (r.age.getD (truncQ med))) := by
  obtain ⟨missing, med', rmax, latest, _, hmed', _, _, hrows, _⟩ := dqc_ok_elim inp rows' rep h
  rw [hmed'] at hmed
  rw [Option.some.injEq] at hmed
  subst hmed
  rw [hrows]
  simp [List.map_map, Function.comp, fillAge, fillDate]

/-- C4 (witness): the amended statement evaluated on the median-3/2 input. -/
theorem c4_age_fill_witness :
    dataQualityCheck inpC4 = .ok (outC4, repC4) ∧
    medianQ ((droppedRows inpC4).filterMap (fun r => r.age)) = some (Rat.divInt 3 2) ∧
    outC4.map (fun r => r.age) =
      (droppedRows inpC4).map (fun r => some (r.age.getD (truncQ (Rat.divInt 3 2)))) :=
  ⟨by decide, by decide,
   c4_age_filled_with_truncated_median inpC4 outC4 repC4 (Rat.divInt 3 2)
     (by decide) (by decide)⟩

/-- C5 (counterexample): disease_trend_over_the_week is NOT a function of
the cleaned table — two runs with the same cleaned table but different CSV
files on disk produce different trend outputs, because the function
re-reads every CSV in the input directory. -/
theorem c5_trend_not_function_of_cleaned_table :
    ¬ ∀ e1 e2 : SparkEnv, e1.cleanedDF = e2.cleanedDF →
        runDiseaseTrend e1 = runDiseaseTrend e2 := by
  intro h
  exact absurd (h ⟨[], []⟩ ⟨[], [trendRow]⟩ rfl) (by decide)

/-- C5 (amended): four of the five aggregations (gender ratio, most common
diseases, age category, senior flag) are functions of the cleaned table
alone, and all five are pure — they leave the cleaned table unchanged —
but the fifth, disease_trend_over_the_week, is a function of the CSV files
on disk and not of the cleaned table. -/
theorem c5_aggregation_dependencies (e1 e2 : SparkEnv) :
    (e1.cleanedDF = e2.cleanedDF →
      runGenderRatio e1 = runGenderRatio e2 ∧ runMostCommon e1 = runMostCommon e2 ∧
      runAgeCategory e1 = runAgeCategory e2 ∧ runSeniorFlag e1 = runSeniorFlag e2) ∧
    (e1.diskRows = e2.diskRows → runDiseaseTrend e1 = runDiseaseTrend e2) := by
  constructor
  · intro h
    exact ⟨by simp [runGenderRatio, h], by simp [runMostCommon, h],
           by simp [runAgeCategory, h], by simp [runSeniorFlag, h]⟩
  · intro h
    simp [runDiseaseTrend, h]

/-- C5 (witness): the amended statement applied to two environments that
share the cleaned table. -/
theorem c5_aggregation_dependencies_witness :
    (SparkEnv.mk [] []).cleanedDF = (SparkEnv.mk [] [trendRow]).cleanedDF ∧
    (runGenderRatio ⟨[], []⟩ = runGenderRatio ⟨[], [trendRow]⟩ ∧
      runMostCommon ⟨[], []⟩ = runMostCommon ⟨[], [trendRow]⟩ ∧
      runAgeCategory ⟨[], []⟩ = runAgeCategory ⟨[], [trendRow]⟩ ∧
      runSeniorFlag ⟨[], []⟩ = runSeniorFlag ⟨[], [trendRow]⟩) :=
  ⟨rfl, (c5_aggregation_dependencies ⟨[], []⟩ ⟨[], [trendRow]⟩).1 rfl⟩

/-- C6: when every step of the run succeeds, the persisted cursor becomes
the YYYYMMDD rendering of the calendar successor of the old date — one
calendar day later, as the ordinal day number certifies — and when any
step raises, the config is left untouched. -/
theorem c6_cursor_advances_one_day (cfg : Config) (readResult : Option InputDF) :
    (∀ d : HDate, parse8 cfg.file_date = some d → runSucceeds cfg readResult = true →
      (runMain cfg readResult).file_date = format8 (nextDay d) ∧
      dayNumber (nextDay d) = dayNumber d + 1) ∧
    (runSucceeds cfg readResult = false → runMain cfg readResult = cfg) := by
  constructor
  · intro d hd hs
    refine ⟨?_, dayNumber_nextDay d (parse8_valid cfg.file_date d hd)⟩
    unfold runSucceeds at hs
    unfold runMain
    split at hs
    · exact absurd hs (by simp)
    next inp =>
    split at hs
    · exact absurd hs (by simp)
    next df rep hdqc =>
    split at hs
    · exact absurd hs (by simp)
    next rat hrat =>
    split at hs
    · exact absurd hs (by simp)
    next cfg2 hsave =>
    exact save_ok_eq cfg cfg2 d hd hsave
  · intro hs
    unfold runSucceeds at hs
    unfold runMain
    split at hs
    · rfl
    next inp =>
    split at hs
    · rfl
    next df rep hdqc =>
    split at hs
    · rfl
    next rat hrat =>
    split at hs
    · rfl
    next cfg2 hsave => exact Bool.noConfusion hs

/-- C6 (witness): a successful run on the cursor 20231231 advances it to
20240101, one calendar day later across the year boundary. -/
theorem c6_cursor_witness :
    parse8 (Config.mk "20231231").file_date = some ⟨2023, 12, 31⟩ ∧
    runSucceeds ⟨"20231231"⟩ (some inpC1) = true ∧
    ((runMain ⟨"20231231"⟩ (some inpC1)).file_date = format8 (nextDay ⟨2023, 12, 31⟩) ∧
      dayNumber (nextDay ⟨2023, 12, 31⟩) = dayNumber ⟨2023, 12, 31⟩ + 1) :=
  ⟨by decide, by decide,
   (c6_cursor_advances_one_day ⟨"20231231"⟩ (some inpC1)).1 ⟨2023, 12, 31⟩
     (by decide) (by decide)⟩

/-- C7 (counterexample): for diagnosis code B, which has one F row and no M
row, the code outputs a null ratio — the empty pivot cell is null and the
division propagates it — while the claim's formula 0 divided by 1, rounded,
predicts 0. -/
theorem c7_counterexample :
    disease_gender_ratio rowsC7 = .ok [(some "A", some (1 : ℚ)), (some "B", none)] ∧
    claimedRatio rowsC7 (some "B") = some 0 ∧
    ((none : Option ℚ) ≠ some (0 : ℚ)) :=
  ⟨by decide, by decide, by decide⟩

/-- C7 (amended): when disease_gender_ratio succeeds (both an M and an F
column exist in the pivot), it outputs one entry per distinct
diagnosis_code; the ratio is round(M-count / F-count, 2) for codes with at
least one M row and at least one F row, and null otherwise. -/
theorem c7_ratio_null_on_missing_gender
    (rows : List RawRow) (out : List (Option String × Option ℚ))
    (h : disease_gender_ratio rows = .ok out) :
    out.map Prod.fst = (rows.map (fun r => r.diagnosis_code)).dedup ∧
    ∀ p ∈ out,
      p.2 = (if 0 < genderCount rows p.1 "M" ∧ 0 < genderCount rows p.1 "F"
             then some (round2 (Rat.divInt (Int.ofNat (genderCount rows p.1 "M"))
                                           (Int.ofNat (genderCount rows p.1 "F"))))
             else none) := by
  unfold disease_gender_ratio at h
  split at h
  · split at h
    · rw [Except.ok.injEq] at h
      subst h
      constructor
      · rw [List.map_map]
        apply List.map_id''
        intro x
        rfl
      · intro p hp
        rw [List.mem_map] at hp
        obtain ⟨cd, hcd, heq⟩ := hp
        rw [← heq]
        rcases Nat.eq_zero_or_pos (genderCount rows cd "M") with hm | hm
        · simp [pivotCell, hm]
        · rcases Nat.eq_zero_or_pos (genderCount rows cd "F") with hf | hf
          · simp [pivotCell, hm, hf, Nat.pos_iff_ne_zero.mp hm]
          · simp [pivotCell, hm, hf, Nat.pos_iff_ne_zero.mp hm, Nat.pos_iff_ne_zero.mp hf]
    · exact Except.noConfusion h
  · exact Except.noConfusion h

/-- C7 (witness): the amended statement evaluated on the two-code table. -/
theorem c7_ratio_witness :
    disease_gender_ratio rowsC7 = .ok [(some "A", some (1 : ℚ)), (some "B", none)] ∧
    ([((some "A" : Option String), some (1 : ℚ)), (some "B", none)].map Prod.fst =
        (rowsC7.map (fun r => r.diagnosis_code)).dedup ∧
      ∀ p ∈ [((some "A" : Option String), some (1 : ℚ)), (some "B", none)],
        p.2 = (if 0 < genderCount rowsC7 p.1 "M" ∧ 0 < genderCount rowsC7 p.1 "F"
               then some (round2 (Rat.divInt (Int.ofNat (genderCount rowsC7 p.1 "M"))
                                             (Int.ofNat (genderCount rowsC7 p.1 "F"))))
               else none)) :=
  ⟨by decide,
   c7_ratio_null_on_missing_gender rowsC7
     [(some "A", some (1 : ℚ)), (some "B", none)] (by decide)⟩

/-- C8: every run's writes are pure appends to their own collections: the
prior contents of every collection stay in place as a prefix, re-running
the same writes appends a second copy of every document, and the
collections written are pairwise distinct named destinations. -/
theorem c8_append_only_distinct_collections
    (inp : InputDF) (disk : List RawRow) (s : Store) (c : String) :
    applyWrites s (runWrites inp disk) c = s c ++ writesFor c (runWrites inp disk) ∧
    applyWrites (applyWrites s (runWrites inp disk)) (runWrites inp disk) c =
      s c ++ writesFor c (runWrites inp disk) ++ writesFor c (runWrites inp disk) ∧
    ((runWrites inp disk).map Prod.fst).Nodup := by
  refine ⟨applyWrites_eq _ _ _, ?_, ?_⟩
  · rw [applyWrites_eq, applyWrites_eq]
  · unfold runWrites
    rcases hdqc : dataQualityCheck inp with e | p
    · show (["healthcare_raw_data"] : List String).Nodup
      decide
    · obtain ⟨df, rep⟩ := p
      dsimp only
      rcases hrat : disease_gender_ratio df with e | rat
      · show (["healthcare_raw_data", "cleaning_report"] : List String).Nodup
        decide
      · show (["healthcare_raw_data", "cleaning_report", "disease_gender_ratio_data",
            "most_common_diseases_data", "age_category_data", "senior_citizen_flag_data",
            "disease_trend_over_the_week_data"] : List String).Nodup
        decide

/-- C9: the cleaned dataframe contains no null patient_id: the rows are
exactly the input rows with non-null patient_id, in order, with the same
patient_id values (only age and diagnosis_date are imputed). -/
theorem c9_no_null_patient_id
    (inp : InputDF) (rows' : List RawRow) (rep : CleaningReport)
    (h : dataQualityCheck inp = .ok (rows', rep)) :
    (∀ r ∈ rows', r.patient_id.isSome = true) ∧
    rows'.map (fun r => r.patient_id) =
      (inp.rows.filter (fun r => r.patient_id.isSome)).map (fun r => r.patient_id) := by
  obtain ⟨missing, med, rmax, latest, _, _, _, _, hrows, _⟩ := dqc_ok_elim inp rows' rep h
  subst hrows
  constructor
  · intro r hr
    rw [List.mem_map] at hr
    obtain ⟨w, hw, heq⟩ := hr
    rw [List.mem_map] at hw
    obtain ⟨v, hv, heqw⟩ := hw
    rw [droppedRows, List.mem_filter] at hv
    subst heq
    subst heqw
    simpa [fillDate, fillAge] using hv.2
  · simp [droppedRows, List.map_map, Function.comp, fillDate, fillAge]

/-- C9 (witness): the statement evaluated on inpC1, whose rows all carry a
patient_id. -/
theorem c9_no_null_patient_id_witness :
    dataQualityCheck inpC1 = .ok (outC1, repC1) ∧
    ((∀ r ∈ outC1, r.patient_id.isSome = true) ∧
      outC1.map (fun r => r.patient_id) =
        (inpC1.rows.filter (fun r => r.patient_id.isSome)).map (fun r => r.patient_id)) :=
  ⟨by decide, c9_no_null_patient_id inpC1 outC1 repC1 (by decide)⟩

/-- C10: whenever data_quality_check returns a report, its missing_columns
field is the empty list, because the schema loop raises on the first
missing column before the report can be built. -/
theorem c10_missing_columns_empty
    (inp : InputDF) (rows' : List RawRow) (rep : CleaningReport)
    (h : dataQualityCheck inp = .ok (rows', rep)) : rep.missing_columns = [] := by
  obtain ⟨missing, med, rmax, latest, hcc, _, _, _, _, hrep⟩ := dqc_ok_elim inp rows' rep h
  rw [hrep]
  exact checkColumns_ok_eq _ _ _ _ hcc

/-- C10 (witness): the statement evaluated on the three-row input. -/
theorem c10_missing_columns_empty_witness :
    dataQualityCheck inpC2 = .ok (inpC2.rows, repC2) ∧ repC2.missing_columns = [] :=
  ⟨by decide, c10_missing_columns_empty inpC2 inpC2.rows repC2 (by decide)⟩

end HealthETL
